import Mathlib

/-!
Verification of the turn-processing pipeline of the botbuilder-js repository:
the middleware chain runner (`MiddlewareSet` in
libraries/botbuilder-core/src/middlewareSet.ts), the channel capability tables
(libraries/botbuilder-choices/src/channel.ts), and the turn-context /
orchestrator layer whose implementation is only declared in the repository
(lib/turnContext.d.ts, lib/botFrameworkAdapter.d.ts) and is therefore modelled
from the specification.

The JavaScript code is asynchronous and mutates a shared `TurnContext`.  The
shallow embedding threads the mutable state explicitly: a middleware handler
receives the current state and a `next` continuation from state to state, and
returns the updated state together with an optional error.  A rejected promise
(or a synchronous throw, which `run`'s try/catch converts into a rejection)
is the `some e` component of the result; state mutations that happened before
the rejection survive, exactly as mutations of the JavaScript context object
survive a rejection.
-/

/-- Result of running a (chain of) middleware handler(s): the state after the
run together with `none` on success or `some e` when the promise rejected. -/
abbrev MWResult (σ ε : Type) := σ × Option ε

/-- Embedding of the source type
`MiddlewareHandler = (context, next) => Promiseable<void>`:
the handler gets the current context state and the `next` continuation and
yields the final state plus an optional rejection. -/
abbrev MiddlewareHandler (σ ε : Type) := σ → (σ → MWResult σ ε) → MWResult σ ε

/-- Embedding of the recursive `runNext` closure inside `MiddlewareSet.run`:
`runNext(i)` invokes `handlers[i](context, () => runNext(i + 1))` while
`i < handlers.length`, and invokes the terminal `next()` once the list is
exhausted.  The index `i` is represented by structural recursion on the list
of the handlers that remain (`handlers.drop i`); the try/catch that converts a
synchronous throw into a rejected promise is the error component of
`MWResult`. -/
def runNext {σ ε : Type} (handlers : List (MiddlewareHandler σ ε))
    (next : σ → MWResult σ ε) : σ → MWResult σ ε :=
  match handlers with
  | [] => next
  | h :: rest => fun context => h context (runNext rest next)

/-- Embedding of `MiddlewareSet.run(context, next)`.  The source first takes
the snapshot `const handlers = this.middleware.slice();` — here the list of
handlers is already the value passed in — and then starts `runNext(0)`. -/
def MiddlewareSet.run {σ ε : Type} (middleware : List (MiddlewareHandler σ ε))
    (context : σ) (next : σ → MWResult σ ε) : MWResult σ ε :=
  runNext middleware next context

/-- Events recorded by the instrumented middleware handlers used to observe
execution order (the spec's "instrumented interceptors recording a shared
execution log"). -/
inductive Ev where
  | enter (i : Nat)
  | mid (i : Nat)
  | exit (i : Nat)
  | term
deriving DecidableEq

/-- Terminal handler that records that the bot logic ran. -/
def termH {ε : Type} : List Ev → MWResult (List Ev) ε :=
  fun log => (log ++ [Ev.term], none)

/-- Terminal handler that rejects with error `e`. -/
def termThrow {ε : Type} (e : ε) : List Ev → MWResult (List Ev) ε :=
  fun log => (log, some e)

/-- Instrumented interceptor `i` of the plain shape
`async (context, next) => { log(enter i); await next(); log(exit i); }`:
the trailing edge runs only when the awaited `next()` resolved; a rejection
of `next()` rethrows out of the `await`, skipping the code after it. -/
def logMW {ε : Type} (i : Nat) : MiddlewareHandler (List Ev) ε :=
  fun log next =>
    match next (log ++ [Ev.enter i]) with
    | (log2, none) => (log2 ++ [Ev.exit i], none)
    | (log2, some e) => (log2, some e)

/-- Instrumented interceptor `i` that never calls `next()` (short-circuit). -/
def shortMW {ε : Type} (i : Nat) : MiddlewareHandler (List Ev) ε :=
  fun log _next => (log ++ [Ev.enter i], none)

/-- Instrumented interceptor `i` that throws `e` after its leading edge. -/
def throwMW {ε : Type} (i : Nat) (e : ε) : MiddlewareHandler (List Ev) ε :=
  fun log _next => (log ++ [Ev.enter i], some e)

/-- Instrumented interceptor `i` that awaits its `next()` callback twice. -/
def twiceMW {ε : Type} (i : Nat) : MiddlewareHandler (List Ev) ε :=
  fun log next =>
    match next (log ++ [Ev.enter i]) with
    | (log2, none) =>
      match next (log2 ++ [Ev.mid i]) with
      | (log3, none) => (log3 ++ [Ev.exit i], none)
      | (log3, some e) => (log3, some e)
    | (log2, some e) => (log2, some e)

lemma runNext_logMW_append {ε : Type} (ids : List Nat)
    (hs : List (MiddlewareHandler (List Ev) ε)) (next : List Ev → MWResult (List Ev) ε)
    (log : List Ev) :
    runNext (ids.map logMW ++ hs) next log =
      match runNext hs next (log ++ ids.map Ev.enter) with
      | (log2, none) => (log2 ++ (ids.map Ev.exit).reverse, none)
      | (log2, some e) => (log2, some e) := by
  induction ids generalizing log with
  | nil =>
    rcases h : runNext hs next (log ++ List.map Ev.enter []) with ⟨log2, _ | e⟩ <;>
      simp_all [runNext]
  | cons i rest ih =>
    simp only [List.map_cons, List.cons_append, runNext, logMW, ih (log ++ [Ev.enter i])]
    rcases h : runNext hs next (log ++ List.map Ev.enter (i :: rest)) with ⟨log2, _ | e⟩ <;>
      simp_all [List.append_assoc]

lemma runNext_logMW_termH {ε : Type} (ids : List Nat) (log : List Ev) :
    runNext (ids.map logMW) (termH (ε := ε)) log =
      (log ++ ids.map Ev.enter ++ [Ev.term] ++ (ids.map Ev.exit).reverse, none) := by
  have h := runNext_logMW_append (ε := ε) ids [] termH log
  simpa [runNext, termH, List.append_assoc] using h

/-- C1: leading edges run in registration order, trailing edges unwind in
exact reverse (LIFO) order: for every list of instrumented interceptors, the
execution log of `MiddlewareSet.run` is the enters in registration order,
then the terminal handler, then the exits in reverse order. -/
theorem middlewareSet_run_order {ε : Type} (ids : List Nat) :
    MiddlewareSet.run (ids.map logMW) [] (termH (ε := ε)) =
      (ids.map Ev.enter ++ [Ev.term] ++ (ids.map Ev.exit).reverse, none) := by
  simpa [MiddlewareSet.run] using runNext_logMW_termH (ε := ε) ids []

/-- C3: an interceptor that never calls `next()` stops the chain: the terminal
handler and all later interceptors never run, while the earlier interceptors'
leading edges are unaffected and their trailing edges still run (in reverse
order) after the short-circuiting interceptor completes. -/
theorem middlewareSet_short_circuit {ε : Type} (before after : List Nat) (j : Nat) :
    MiddlewareSet.run (before.map logMW ++ shortMW j :: after.map logMW) []
        (termH (ε := ε)) =
      (before.map Ev.enter ++ [Ev.enter j] ++ (before.map Ev.exit).reverse, none) := by
  have h := runNext_logMW_append (ε := ε) before (shortMW j :: after.map logMW) termH []
  simp only [MiddlewareSet.run, h, runNext, shortMW]
  simp [List.append_assoc]

/-- C4 counterexample: with interceptor 0 of the plain instrumented shape and
interceptor 1 throwing error 7, the rejection propagates out of `run` as the
same error but interceptor 0's trailing edge does NOT run: the final log is
exactly the two leading edges, and contains no `exit 0` event, contradicting
the claim that every already-entered interceptor's trailing edge still runs. -/
theorem middlewareSet_error_counterexample :
    MiddlewareSet.run [logMW 0, throwMW 1 7] [] (termH (ε := Nat)) =
        ([Ev.enter 0, Ev.enter 1], some 7) ∧
      Ev.exit 0 ∉ (MiddlewareSet.run [logMW 0, throwMW 1 7] [] (termH (ε := Nat))).1 := by
  constructor
  · rfl
  · decide

/-- C4 amended: a throw by an interceptor or by the terminal handler
propagates to the caller of `run` as the same error with no retry, and the
leading edges of un-entered interceptors never run; but the trailing edges of
already-entered plain interceptors are skipped (the rejection rethrows out of
their awaited `next()`, so their post-`next()` code does not run). -/
theorem middlewareSet_error_propagation {ε : Type} :
    (∀ (before after : List Nat) (j : Nat) (e : ε),
        MiddlewareSet.run (before.map logMW ++ throwMW j e :: after.map logMW) [] termH =
          (before.map Ev.enter ++ [Ev.enter j], some e)) ∧
      (∀ (ids : List Nat) (e : ε),
        MiddlewareSet.run (ids.map logMW) [] (termThrow e) = (ids.map Ev.enter, some e)) := by
  constructor
  · intro before after j e
    have h := runNext_logMW_append (ε := ε) before (throwMW j e :: after.map logMW) termH []
    simp only [MiddlewareSet.run, h, runNext, throwMW]
    simp
  · intro ids e
    have h := runNext_logMW_append (ε := ε) ids [] (termThrow e) []
    simpa [MiddlewareSet.run, runNext, termThrow] using h

/-- C2 counterexample: an interceptor that calls `next()` twice raises no
error, and the downstream interceptor and the terminal handler execute a
second time: the run succeeds (`none`) and the log records two `term` events
and two `enter 1` events, contradicting the claim that the call fails with an
invalid-usage error and that downstream logic is not executed twice. -/
theorem middlewareSet_next_twice_counterexample :
    MiddlewareSet.run [twiceMW 0, logMW 1] [] (termH (ε := Nat)) =
        ([Ev.enter 0, Ev.enter 1, Ev.term, Ev.exit 1, Ev.mid 0,
          Ev.enter 1, Ev.term, Ev.exit 1, Ev.exit 0], none) ∧
      (MiddlewareSet.run [twiceMW 0, logMW 1] [] (termH (ε := Nat))).1.count Ev.term = 2 := by
  constructor
  · rfl
  · decide

/-- C2 amended: the chain runner has no protection against an interceptor
calling `next()` more than once: each extra call re-executes every downstream
interceptor (leading and trailing edges) and the terminal handler again, and
no error is raised. -/
theorem middlewareSet_next_twice_reexecutes {ε : Type} (before after : List Nat) (j : Nat) :
    MiddlewareSet.run (before.map logMW ++ twiceMW j :: after.map logMW) []
        (termH (ε := ε)) =
      (before.map Ev.enter ++ [Ev.enter j] ++
        (after.map Ev.enter ++ [Ev.term] ++ (after.map Ev.exit).reverse) ++ [Ev.mid j] ++
        (after.map Ev.enter ++ [Ev.term] ++ (after.map Ev.exit).reverse) ++ [Ev.exit j] ++
        (before.map Ev.exit).reverse, none) := by
  have h := runNext_logMW_append (ε := ε) before (twiceMW j :: after.map logMW) termH []
  simp only [MiddlewareSet.run, h, runNext, twiceMW, runNext_logMW_termH]
  simp [List.append_assoc]

/-- The error thrown by `MiddlewareSet.use` for an invalid plugin
(`MiddlewareSet.use(): invalid plugin type being added.`). -/
inductive UseError where
  | invalidPlugin
deriving DecidableEq

/-- The argument forms `MiddlewareSet.use` distinguishes at runtime:
a bare function (`typeof plugin === 'function'`), an object whose `onTurn`
member is present-and-truthy or absent (`typeof plugin === 'object' &&
plugin.onTurn`), and a value that is neither a function nor an object. -/
inductive Plugin (σ ε : Type) where
  | func (handler : MiddlewareHandler σ ε)
  | obj (onTurn : Option (MiddlewareHandler σ ε))
  | nonObject

/-- Embedding of one iteration of the `middleware.forEach((plugin) => ...)`
body of `MiddlewareSet.use`: a function is pushed as-is, an object with an
`onTurn` member is pushed wrapped as
`(context, next) => plugin.onTurn(context, next)`, anything else throws.
The updated middleware list is the state of `this`, which `use` returns. -/
def MiddlewareSet.use {σ ε : Type} (middleware : List (MiddlewareHandler σ ε))
    (plugin : Plugin σ ε) : Except UseError (List (MiddlewareHandler σ ε)) :=
  match plugin with
  | .func h => .ok (middleware ++ [h])
  | .obj (some h) => .ok (middleware ++ [fun context next => h context next])
  | .obj none => .error UseError.invalidPlugin
  | .nonObject => .error UseError.invalidPlugin

/-- C5: `use` throws the invalid-plugin error exactly for arguments that are
neither a callable function nor an object exposing an `onTurn` member, and
otherwise appends the plugin — the object form normalized to the single
callable shape, which is extensionally the `onTurn` member itself — to the
end of the middleware list of the returned set. -/
theorem middlewareSet_use_spec :
    (∀ (mw : List (MiddlewareHandler (List Ev) Nat)) (h : MiddlewareHandler (List Ev) Nat),
        MiddlewareSet.use mw (Plugin.func h) = Except.ok (mw ++ [h])) ∧
      (∀ (mw : List (MiddlewareHandler (List Ev) Nat)) (h : MiddlewareHandler (List Ev) Nat),
        MiddlewareSet.use mw (Plugin.obj (some h)) = Except.ok (mw ++ [h])) ∧
      (∀ (mw : List (MiddlewareHandler (List Ev) Nat)) (p : Plugin (List Ev) Nat),
        (∃ e, MiddlewareSet.use mw p = Except.error e) ↔
          (p = Plugin.obj none ∨ p = Plugin.nonObject)) := by
  refine ⟨fun mw h => rfl, fun mw h => rfl, fun mw p => ?_⟩
  constructor
  · intro he
    rcases he with ⟨e, he⟩
    cases p with
    | func h => simp [MiddlewareSet.use] at he
    | obj o => cases o with
      | none => exact Or.inl rfl
      | some h => simp [MiddlewareSet.use] at he
    | nonObject => exact Or.inr rfl
  · intro hp
    rcases hp with h | h <;> subst h <;> exact ⟨UseError.invalidPlugin, rfl⟩

/-- The observable state of a live `MiddlewareSet` together with the shared
execution log: `middleware` is the mutable `this.middleware` array, holding
the numeric names of the registered handlers, which an interpretation maps to
actual handlers. -/
structure SetState where
  middleware : List Nat
  log : List Ev
deriving DecidableEq

/-- Terminal handler over `SetState` that records that the bot logic ran. -/
def termHS {ε : Type} : SetState → MWResult SetState ε :=
  fun st => ({ st with log := st.log ++ [Ev.term] }, none)

/-- Instrumented interceptor `i` over `SetState` that, on its leading edge,
registers a brand-new handler named `1000 + i` on the set (a mid-run
`use()` call pushing onto `this.middleware`), then awaits `next()` and logs
its trailing edge. -/
def regLogMW {ε : Type} (i : Nat) : MiddlewareHandler SetState ε :=
  fun st next =>
    match next { middleware := st.middleware ++ [1000 + i], log := st.log ++ [Ev.enter i] } with
    | (st2, none) => ({ st2 with log := st2.log ++ [Ev.exit i] }, none)
    | (st2, some e) => (st2, some e)

/-- Embedding of `MiddlewareSet.run` on a live set: the source's
`const handlers = this.middleware.slice();` materializes the handler list
once, at the moment `run` is called, so `runNext` walks that snapshot and
never re-reads `this.middleware`. -/
def MiddlewareSet.runLive {ε : Type} (interp : Nat → MiddlewareHandler SetState ε)
    (st : SetState) (next : SetState → MWResult SetState ε) : MWResult SetState ε :=
  runNext (st.middleware.map interp) next st

lemma runNext_regLogMW {ε : Type} (ids : List Nat) (acc : List Nat) (log : List Ev) :
    runNext (ids.map regLogMW) (termHS (ε := ε)) ⟨acc, log⟩ =
      (⟨acc ++ ids.map (fun i => 1000 + i),
        log ++ ids.map Ev.enter ++ [Ev.term] ++ (ids.map Ev.exit).reverse⟩, none) := by
  induction ids generalizing acc log with
  | nil => simp [runNext, termHS]
  | cons i rest ih =>
    simp only [List.map_cons, runNext, regLogMW, ih (acc ++ [1000 + i]) (log ++ [Ev.enter i])]
    simp [List.append_assoc]

/-- C9: `run` operates on the snapshot of the middleware list taken when it
is called.  With every snapshot handler registering a fresh handler
(`1000 + i`) on the set from inside the run, the final middleware list shows
all of those registrations, yet the execution log contains only the snapshot
handlers' events — the newly registered handlers are never invoked during
that execution; and with an empty middleware list, `run` invokes the terminal
handler exactly once. -/
theorem middlewareSet_run_snapshot :
    (∀ ids : List Nat,
        MiddlewareSet.runLive regLogMW ⟨ids, []⟩ (termHS (ε := Nat)) =
          (⟨ids ++ ids.map (fun i => 1000 + i),
            ids.map Ev.enter ++ [Ev.term] ++ (ids.map Ev.exit).reverse⟩, none)) ∧
      MiddlewareSet.runLive regLogMW ⟨[], []⟩ (termHS (ε := Nat)) = (⟨[], [Ev.term]⟩, none) := by
  constructor
  · intro ids
    simpa [MiddlewareSet.runLive] using runNext_regLogMW (ε := Nat) ids ids []
  · simpa [MiddlewareSet.runLive] using runNext_regLogMW (ε := Nat) [] [] []

/-- The addressing-relevant shape of an Activity (spec section 3): the
semantic fields the turn-processing core needs, each optional, as on the
`Partial<Activity>` values the declared API passes around. -/
structure Activity where
  type : Option String
  id : Option String
  text : Option String
  channelId : Option String
  conversation : Option String
  «from» : Option String
  recipient : Option String
  replyToId : Option String
  serviceUrl : Option String
deriving DecidableEq

/-- The activity with every field absent (`{}`). -/
def emptyActivity : Activity :=
  { type := none, id := none, text := none, channelId := none, conversation := none,
    «from» := none, recipient := none, replyToId := none, serviceUrl := none }

/-- A Conversation Reference (spec section 3): the projection of an
Activity's addressing fields — `conversation`, `user`, `bot`, `channelId`,
`serviceUrl` — sufficient to re-address a new activity to the same
conversation. -/
structure ConversationReference where
  user : Option String
  bot : Option String
  conversation : Option String
  channelId : Option String
  serviceUrl : Option String
deriving DecidableEq

/-- Modelled from the spec: the implementation of
`TurnContext.getConversationReference` (turnContext.ts is not in src, only
its declaration) — the pure extraction of the addressing projection from an
activity, with `user` taken from the activity's sender (`from`) and `bot`
from its `recipient`. -/
def TurnContext.getConversationReference (activity : Activity) : ConversationReference :=
  { user := activity.«from», bot := activity.recipient,
    conversation := activity.conversation, channelId := activity.channelId,
    serviceUrl := activity.serviceUrl }

/-- Modelled from the spec: the implementation of
`TurnContext.applyConversationReference` (turnContext.ts is not in src, only
its declaration) — a pure merge of the reference's delivery information into
the activity; when `isIncoming` is true the reference's `user`/`bot` go into
`from`/`recipient` respectively, otherwise into `recipient`/`from`. -/
def TurnContext.applyConversationReference (activity : Activity)
    (reference : ConversationReference) (isIncoming : Bool := false) : Activity :=
  let a := { activity with channelId := reference.channelId,
                           serviceUrl := reference.serviceUrl,
                           conversation := reference.conversation }
  if isIncoming then
    { a with «from» := reference.user, recipient := reference.bot }
  else
    { a with «from» := reference.bot, recipient := reference.user }

/-- C7: `getConversationReference` followed by `applyConversationReference`
with `isIncoming = false` on a fresh activity reproduces the original
activity's delivery addressing fields exactly — `conversation`, `channelId`
and `serviceUrl` unchanged, and the reference's `user`/`bot` (the original
`from`/`recipient`) mapped onto `recipient`/`from`.  Both functions are pure
Lean functions, so applying a reference cannot mutate it. -/
theorem conversationReference_roundtrip (act fresh : Activity) :
    (TurnContext.applyConversationReference fresh
        (TurnContext.getConversationReference act) false).conversation = act.conversation ∧
      (TurnContext.applyConversationReference fresh
        (TurnContext.getConversationReference act) false).channelId = act.channelId ∧
      (TurnContext.applyConversationReference fresh
        (TurnContext.getConversationReference act) false).serviceUrl = act.serviceUrl ∧
      (TurnContext.applyConversationReference fresh
        (TurnContext.getConversationReference act) false).recipient = act.«from» ∧
      (TurnContext.applyConversationReference fresh
        (TurnContext.getConversationReference act) false).«from» = act.recipient := by
  refine ⟨rfl, rfl, rfl, rfl, rfl⟩

/-- The per-turn context state (spec sections 3 and 9): the originating
activity, the `responded` flag, and the explicit `live` flag modelling the
revocable proxy — set false exactly once when the owning turn fully
resolves, checked at the start of every operation. -/
structure TurnCtx where
  live : Bool
  activity : Activity
  responded : Bool
deriving DecidableEq

/-- The stale/invalid-context error raised by operations on a revoked
context. -/
inductive CtxError where
  | staleContext
deriving DecidableEq

/-- The operations a Turn Context exposes, as enumerated by the declared API
(turnContext.d.ts): the send/update/delete calls, the three hook
registrations, and property access on the context. -/
inductive TurnCtxOp where
  | sendActivity
  | sendActivities
  | updateActivity
  | deleteActivity
  | onSendActivities
  | onUpdateActivity
  | onDeleteActivity
  | getActivity
deriving DecidableEq

/-- Modelled from the spec: the revocation guard of the Turn Context
operations (turnContext.ts / the revocable proxy in botFrameworkAdapter.ts
are not in src, only their declarations).  Every operation first checks the
`live` flag and fails with the stale-context error when the owning turn has
resolved; a live context performs the operation (sends mark the turn as
responded). -/
def applyCtxOp (ctx : TurnCtx) (op : TurnCtxOp) : Except CtxError TurnCtx :=
  if ctx.live then
    match op with
    | .sendActivity => .ok { ctx with responded := true }
    | .sendActivities => .ok { ctx with responded := true }
    | _ => .ok ctx
  else
    .error CtxError.staleContext

/-- Modelled from the spec: the orchestrator's per-turn core
(botFrameworkAdapter.ts is not in src, only its declaration) — build a live
Turn Context for the activity, run the middleware chain with the bot logic
as terminal handler, and invalidate the context once the chain has fully
resolved, in both the success and the failure path. -/
def processTurn {ε : Type} (mw : List (MiddlewareHandler TurnCtx ε)) (act : Activity)
    (logic : TurnCtx → MWResult TurnCtx ε) : MWResult TurnCtx ε :=
  let r := MiddlewareSet.run mw { live := true, activity := act, responded := false } logic
  ({ r.1 with live := false }, r.2)

/-- C6: after the owning turn has fully resolved — whether the chain
succeeded or failed — every Turn Context operation fails with the
stale-context error rather than silently doing nothing. -/
theorem turnContext_invalidation {ε : Type} (mw : List (MiddlewareHandler TurnCtx ε))
    (act : Activity) (logic : TurnCtx → MWResult TurnCtx ε) (op : TurnCtxOp) :
    applyCtxOp (processTurn mw act logic).1 op = Except.error CtxError.staleContext := by
  simp [processTurn, applyCtxOp]

/-- The per-turn state machine phases of the Turn Orchestrator
(spec section 4.3). -/
inductive TurnPhase where
  | received
  | authenticated
  | contextBuilt
  | middlewareRunning
  | logicRunning
  | middlewareUnwinding
  | invalidated
deriving DecidableEq

/-- The outcome of one orchestrated turn: the phase trace the turn went
through, the Turn Context it built (none when authentication aborted before
a context existed), the context after invalidation, whether authentication
failed, and the error the chain rejected with, if any. -/
structure TurnRun (ε : Type) where
  phases : List TurnPhase
  initialCtx : Option TurnCtx
  finalCtx : Option TurnCtx
  authFailed : Bool
  err : Option ε
deriving DecidableEq

/-- Modelled from the spec: the shared post-authentication core of the
orchestrator's state machine (botFrameworkAdapter.ts is not in src) —
context-built, middleware-running, logic-running, middleware-unwinding,
invalidated, with the context revoked in success and failure paths alike. -/
def turnCore {ε : Type} (mw : List (MiddlewareHandler TurnCtx ε)) (act : Activity)
    (logic : TurnCtx → MWResult TurnCtx ε) : TurnRun ε :=
  let ctx0 : TurnCtx := { live := true, activity := act, responded := false }
  let r := MiddlewareSet.run mw ctx0 logic
  { phases := [TurnPhase.contextBuilt, TurnPhase.middlewareRunning, TurnPhase.logicRunning,
               TurnPhase.middlewareUnwinding, TurnPhase.invalidated],
    initialCtx := some ctx0,
    finalCtx := some { r.1 with live := false },
    authFailed := false,
    err := r.2 }

/-- Modelled from the spec: `BotFrameworkAdapter.processActivity`
(botFrameworkAdapter.ts is not in src) — authenticate the received request
first (the external identity-verification collaborator is a boolean input);
on failure abort without ever constructing a Turn Context, otherwise run the
shared per-turn core on the received activity. -/
def processActivity {ε : Type} (authOk : Bool) (mw : List (MiddlewareHandler TurnCtx ε))
    (act : Activity) (logic : TurnCtx → MWResult TurnCtx ε) : TurnRun ε :=
  if authOk then
    let r := turnCore mw act logic
    { r with phases := TurnPhase.received :: TurnPhase.authenticated :: r.phases }
  else
    { phases := [TurnPhase.received], initialCtx := none, finalCtx := none,
      authFailed := true, err := none }

/-- Modelled from the spec: the minimal activity
`BotFrameworkAdapter.continueConversation`/`createConversation` synthesize
from a previously captured conversation reference — its address-related
fields populated from the reference while its `type` stays undefined,
signalling that it is not a real received event. -/
def synthesizeActivity (reference : ConversationReference) : Activity :=
  TurnContext.applyConversationReference emptyActivity reference true

/-- Modelled from the spec: `BotFrameworkAdapter.continueConversation`
(botFrameworkAdapter.ts is not in src) — the same per-turn state machine as
`processActivity`, minus the authentication step (no inbound activity
exists), run on the activity synthesized from the conversation reference. -/
def continueConversation {ε : Type} (reference : ConversationReference)
    (mw : List (MiddlewareHandler TurnCtx ε)) (logic : TurnCtx → MWResult TurnCtx ε) :
    TurnRun ε :=
  let r := turnCore mw (synthesizeActivity reference) logic
  { r with phases := TurnPhase.received :: r.phases }

/-- Modelled from the spec: `BotFrameworkAdapter.createConversation`
(botFrameworkAdapter.ts is not in src) — follows the same state machine as
`continueConversation`: no authentication, a synthesized activity addressed
by the reference, the same per-turn core. -/
def createConversation {ε : Type} (reference : ConversationReference)
    (mw : List (MiddlewareHandler TurnCtx ε)) (logic : TurnCtx → MWResult TurnCtx ε) :
    TurnRun ε :=
  let r := turnCore mw (synthesizeActivity reference) logic
  { r with phases := TurnPhase.received :: r.phases }

/-- C8: `continueConversation` and `createConversation` run the same per-turn
state machine as `processActivity` with the authentication step skipped
(their phase trace is exactly the successful `processActivity` trace with
`authenticated` removed), and the Turn Context they build carries the
synthesized activity, whose address-related fields come from the reference
and whose `type` is undefined. -/
theorem proactive_conversation_spec {ε : Type} (reference : ConversationReference)
    (mw : List (MiddlewareHandler TurnCtx ε)) (act : Activity)
    (logic : TurnCtx → MWResult TurnCtx ε) :
    (continueConversation reference mw logic).phases =
        (processActivity true mw act logic).phases.filter
          (fun p => p ≠ TurnPhase.authenticated) ∧
      (createConversation reference mw logic) = (continueConversation reference mw logic) ∧
      (continueConversation reference mw logic).initialCtx =
        some { live := true, activity := synthesizeActivity reference, responded := false } ∧
      (synthesizeActivity reference).type = none ∧
      (synthesizeActivity reference).conversation = reference.conversation ∧
      (synthesizeActivity reference).channelId = reference.channelId ∧
      (synthesizeActivity reference).serviceUrl = reference.serviceUrl ∧
      (synthesizeActivity reference).«from» = reference.user ∧
      (synthesizeActivity reference).recipient = reference.bot := by
  refine ⟨?_, rfl, rfl, rfl, rfl, rfl, rfl, rfl, rfl⟩
  simp [continueConversation, processActivity, turnCore]

namespace channels

/-- Embedding of the `channels` lookup object of channel.ts. -/
def facebook : String := "facebook"

def skype : String := "skype"

def msteams : String := "msteams"

def telegram : String := "telegram"

def kik : String := "kik"

def email : String := "email"

def slack : String := "slack"

def groupme : String := "groupme"

def sms : String := "sms"

def emulator : String := "emulator"

def directline : String := "directline"

def webchat : String := "webchat"

def console : String := "console"

def cortana : String := "cortana"

end channels

/-- A channel identifier outside every `case` of the two switch statements,
used as a concrete witness for the default branch. -/
def unknownChannel : String := "whatsapp"

/-- Embedding of `supportsSuggestedActions(channelId, buttonCnt = 100)`:
the switch's fall-through case groups become disjunctions of equalities, the
default case returns false. -/
def supportsSuggestedActions (channelId : String) (buttonCnt : Nat := 100) : Bool :=
  if channelId = channels.facebook ∨ channelId = channels.skype then
    buttonCnt ≤ 10
  else if channelId = channels.kik then
    buttonCnt ≤ 20
  else if channelId = channels.slack ∨ channelId = channels.telegram ∨
      channelId = channels.emulator then
    buttonCnt ≤ 100
  else
    false

/-- Embedding of `supportsCardActions(channelId, buttonCnt = 100)`. -/
def supportsCardActions (channelId : String) (buttonCnt : Nat := 100) : Bool :=
  if channelId = channels.facebook ∨ channelId = channels.skype ∨
      channelId = channels.msteams then
    buttonCnt ≤ 3
  else if channelId = channels.slack ∨ channelId = channels.emulator ∨
      channelId = channels.directline ∨ channelId = channels.webchat ∨
      channelId = channels.cortana then
    buttonCnt ≤ 100
  else
    false

/-- Embedding of `hasMessageFeed(channelId)`. -/
def hasMessageFeed (channelId : String) : Bool :=
  if channelId = channels.cortana then false else true

/-- Embedding of `maxActionTitleLength(channelId)`: a constant. -/
def maxActionTitleLength (_channelId : String) : Nat := 20

/-- C10: both capability predicates are monotone in the button count — a
channel that supports `n` buttons supports every `m ≤ n` — and every channel
identifier outside the channels enumerated in their switch statements is
unsupported for every button count. -/
theorem channel_support_monotone :
    (∀ (channelId : String) (n m : Nat), m ≤ n →
        supportsSuggestedActions channelId n = true →
        supportsSuggestedActions channelId m = true) ∧
      (∀ (channelId : String) (n m : Nat), m ≤ n →
        supportsCardActions channelId n = true →
        supportsCardActions channelId m = true) ∧
      (∀ (channelId : String),
        channelId ≠ channels.facebook → channelId ≠ channels.skype →
        channelId ≠ channels.kik → channelId ≠ channels.slack →
        channelId ≠ channels.telegram → channelId ≠ channels.emulator →
        ∀ buttonCnt, supportsSuggestedActions channelId buttonCnt = false) ∧
      (∀ (channelId : String),
        channelId ≠ channels.facebook → channelId ≠ channels.skype →
        channelId ≠ channels.msteams → channelId ≠ channels.slack →
        channelId ≠ channels.emulator → channelId ≠ channels.directline →
        channelId ≠ channels.webchat → channelId ≠ channels.cortana →
        ∀ buttonCnt, supportsCardActions channelId buttonCnt = false) := by
  refine ⟨?_, ?_, ?_, ?_⟩
  · intro channelId n m hmn h
    simp only [supportsSuggestedActions] at h ⊢
    split_ifs at h ⊢ with h1 h2 h3 <;> simp_all <;> omega
  · intro channelId n m hmn h
    simp only [supportsCardActions] at h ⊢
    split_ifs at h ⊢ with h1 h2 <;> simp_all <;> omega
  · intro channelId h1 h2 h3 h4 h5 h6 buttonCnt
    simp only [supportsSuggestedActions]
    split_ifs with g1 g2 <;> tauto
  · intro channelId h1 h2 h3 h4 h5 h6 h7 h8 buttonCnt
    simp only [supportsCardActions]
    split_ifs with g1 g2 <;> tauto

/-- Witness for C10 at concrete inputs: facebook supports 0 suggested-action
buttons because it supports 10; msteams supports 0 card-action buttons
because it supports 3; and an unknown channel supports neither for any
count. -/
theorem channel_support_monotone_witness :
    supportsSuggestedActions channels.facebook 0 = true ∧
      supportsCardActions channels.msteams 0 = true ∧
      supportsSuggestedActions unknownChannel 42 = false ∧
      supportsCardActions unknownChannel 42 = false := by
  refine ⟨?_, ?_, ?_, ?_⟩
  · exact channel_support_monotone.1 channels.facebook 10 0 (by decide) (by decide)
  · exact channel_support_monotone.2.1 channels.msteams 3 0 (by decide) (by decide)
  · exact channel_support_monotone.2.2.1 unknownChannel (by decide) (by decide) (by decide)
      (by decide) (by decide) (by decide) 42
  · exact channel_support_monotone.2.2.2 unknownChannel (by decide) (by decide) (by decide)
      (by decide) (by decide) (by decide) (by decide) (by decide) 42
